import Mathlib

/-!
Shallow embedding of the OMR evaluation dashboard (scan-score-shine).

Conventions of the embedding:
* JS numbers that are used as array contents, counters or indices are `Int`/`Nat`;
  JS numbers that undergo division (percentages, averages, random draws) are `ℚ`.
* A JS object used as a map (`subject_scores`, `subjectPerformance`, ...) is
  modelled either as an association list (`List (String × _)`, lookup takes the
  first binding, as a JS object has unique keys) or, for aggregate outputs,
  as a function `String → Option _` (the key → value view of the object).
* JS array indexing `a[i]` is `Option`-valued (`none` plays the role of
  `undefined`); `undefined === undefined` is `true`, which `Option` equality
  reproduces.
* `Math.random()` draws are passed in as explicit `ℚ` parameters in `[0, 1)`.
* Calendar days (`toISOString().split('T')[0]`) are modelled as integer day
  numbers; "today" is such an integer.
* `x.toFixed(2)` followed by `Number(...)` is modelled exactly over `ℚ` as
  rounding half away from zero at 2 decimals (the ECMAScript `toFixed`
  algorithm on the exact value); `Math.round` is `⌊q + 1/2⌋`.
-/

namespace OMR

/-- A subject range from `subject_breakdown`; `stop` models the JS field `end`
(a Lean keyword). Both bounds are 1-based and inclusive. -/
structure SubjectRange where
  start : Int
  stop : Int
deriving DecidableEq, Repr

/-- A row of the `answer_keys` table as read by `simulateOMRProcessing` and
written by `saveAnswerKey` (AnswerKeyManager.tsx). -/
structure AnswerKey where
  name : String
  version : String
  subject_breakdown : List (String × SubjectRange)
  answers : List Int
  total_questions : Int
  max_score : Int
deriving DecidableEq, Repr

/-- The three-way classification of a question made by the scoring loop in
`simulateOMRProcessing` (OMRUpload.tsx lines 225-233). -/
inductive Verdict where
  | unanswered
  | correct
  | incorrect
deriving DecidableEq, Repr

def isUnanswered : Verdict → Bool
  | .unanswered => true
  | _ => false

def isCorrect : Verdict → Bool
  | .correct => true
  | _ => false

def isIncorrect : Verdict → Bool
  | .incorrect => true
  | _ => false

/-- One iteration of the `detectedAnswers.forEach((answer, index) => ...)`
scoring loop: `answer === 0` is unanswered, `answer === correctAnswers[index]`
is correct, anything else is incorrect.  `keyAnswers[index]?` is `none` when
the key array is shorter than the detected array (JS `undefined`, which a
number never equals). -/
def verdictOf (keyAnswers : List Int) (index : Nat) (answer : Int) : Verdict :=
  if answer = 0 then .unanswered
  else if keyAnswers[index]? = some answer then .correct
  else .incorrect

/-- The per-question verdicts of the scoring loop, in question order. -/
def verdicts (detected keyAnswers : List Int) : List Verdict :=
  detected.mapIdx (fun i a => verdictOf keyAnswers i a)

/-- The `correct` counter after the scoring loop. -/
def correctCount (detected keyAnswers : List Int) : Nat :=
  (verdicts detected keyAnswers).countP isCorrect

/-- The `incorrect` counter after the scoring loop. -/
def incorrectCount (detected keyAnswers : List Int) : Nat :=
  (verdicts detected keyAnswers).countP isIncorrect

/-- The `unanswered` counter after the scoring loop. -/
def unansweredCount (detected keyAnswers : List Int) : Nat :=
  (verdicts detected keyAnswers).countP isUnanswered

/-- The verdict of question `j` (0-based), reading the detected answer from
the array; out-of-range positions never occur in the scoring loop. -/
def verdictAt (detected keyAnswers : List Int) (j : Nat) : Verdict :=
  match detected[j]? with
  | some a => verdictOf keyAnswers j a
  | none => .unanswered

/-- JS array access `l[i]` for a possibly negative index: `undefined` (`none`)
outside the array. -/
def jsIndex (l : List Int) (i : Int) : Option Int :=
  if i < 0 then none else l[i.toNat]?

/-- The list of `Int` loop counters of `for (let i = lo; i <= hi; i++)`. -/
def intRange (lo hi : Int) : List Int :=
  (List.range (hi + 1 - lo).toNat).map (fun j : ℕ => lo + (j : Int))

/-- The subject-score loop of `simulateOMRProcessing` (OMRUpload.tsx lines
239-251): for `i` from `range.start - 1` to `range.end - 1`, count the
positions with `detectedAnswers[i] === correctAnswers[i]`.  Note that the
loop does not re-use the per-question verdicts: it compares the raw array
entries, and two out-of-range reads (`undefined === undefined`) count as a
hit. -/
def subjectScore (detected keyAnswers : List Int) (r : SubjectRange) : Nat :=
  (intRange (r.start - 1) (r.stop - 1)).countP
    (fun i => jsIndex detected i == jsIndex keyAnswers i)

/-- `Math.round`: round half toward positive infinity. -/
def jsRound (q : ℚ) : Int := ⌊q + 1/2⌋

/-- `Number(x.toFixed(2))` on the exact rational value: round half away from
zero at two decimals. -/
def round2 (q : ℚ) : ℚ :=
  if q < 0 then -((⌊(-q) * 100 + 1/2⌋ : ℤ) : ℚ) / 100
  else ((⌊q * 100 + 1/2⌋ : ℤ) : ℚ) / 100

/-- The row inserted into `omr_results` by `simulateOMRProcessing`
(OMRUpload.tsx lines 256-272). -/
structure ResultRow where
  detected_answers : List Int
  subject_scores : List (String × Nat)
  total_score : Nat
  max_score : Int
  percentage : ℚ
  correct_answers : Nat
  incorrect_answers : Nat
  unanswered : Nat
  confidence_score : ℚ
  processing_time : Int
deriving DecidableEq, Repr

/-- `simulateOMRProcessing`, scoring part: from the answer key, the generated
detected-answer vector, and the two `Math.random()` draws used for
`confidence_score` and `processing_time`, build the `omr_results` row.
`totalScore = correct`, `percentage = (totalScore / total_questions) * 100`
then `toFixed(2)`, `confidence_score = Math.random() * 20 + 80`,
`processing_time = Math.floor(Math.random() * 5000) + 1000`. -/
def simulateResultRow (key : AnswerKey) (detected : List Int) (r1 r2 : ℚ) : ResultRow :=
  { detected_answers := detected
    subject_scores :=
      key.subject_breakdown.map (fun p => (p.1, subjectScore detected key.answers p.2))
    total_score := correctCount detected key.answers
    max_score := key.max_score
    percentage :=
      round2 (((correctCount detected key.answers : ℚ) / (key.total_questions : ℚ)) * 100)
    correct_answers := correctCount detected key.answers
    incorrect_answers := incorrectCount detected key.answers
    unanswered := unansweredCount detected key.answers
    confidence_score := r1 * 20 + 80
    processing_time := ⌊r2 * 5000⌋ + 1000 }

/-- The percentage formula as the specification words it:
`totalScore / maxScore * 100`, rounded to 2 decimals half away from zero.
Stated separately from the source-derived `simulateResultRow` so the two can
be compared. -/
def specPercentage (totalScore maxScore : ℚ) : ℚ :=
  round2 (totalScore / maxScore * 100)

/-- `saveAnswerKey` (AnswerKeyManager.tsx lines 115-191), with the answer
pattern already parsed from the comma-separated text (`split(',')`,
`parseInt`, `filter(!isNaN)`).  The store is the `answer_keys` table;
`editing = some i` is the update path (`editingKey` set, row `i` replaced),
`none` is the insert path.  Returns the store after the call and the
validation toast, `none` on success.  The subject breakdown is passed
through to the saved row without any validation. -/
def saveAnswerKey (store : List AnswerKey) (editing : Option Nat)
    (name version : String) (answers : List Int)
    (breakdown : List (String × SubjectRange)) : List AnswerKey × Option String :=
  if name = "" || version = "" then
    (store, some "Please fill in all required fields")
  else if answers.length ≠ 100 then
    (store, some "Please provide exactly 100 answers (1-4 for each question)")
  else if answers.any (fun a => a < 1 || 4 < a) then
    (store, some "All answers must be between 1 and 4")
  else
    match editing with
    | some i => (store.set i ⟨name, version, breakdown, answers, 100, 100⟩, none)
    | none => (store ++ [⟨name, version, breakdown, answers, 100, 100⟩], none)

/-- Two inclusive 1-based ranges intersect (modelled from the spec, which
demands that `validate` reject such a breakdown with `RangeOverlap`). -/
def rangesIntersect (r₁ r₂ : SubjectRange) : Bool :=
  r₁.start ≤ r₂.stop && r₂.start ≤ r₁.stop

/-- Some two distinct entries of a subject breakdown have intersecting ranges
(modelled from the spec's `RangeOverlap` condition). -/
def breakdownOverlaps : List (String × SubjectRange) → Bool
  | [] => false
  | p :: rest => rest.any (fun q => rangesIntersect p.2 q.2) || breakdownOverlaps rest

/-- One joined `omr_results ⋈ omr_sheets` record as fetched by
`loadAnalyticsData` (AnswerKeyManager.tsx / OMRAnalytics): the result's
percentage and subject scores, plus the sheet's version and upload day. -/
structure ResultRecord where
  percentage : ℚ
  subject_scores : List (String × ℚ)
  sheet_version : String
  created_day : Int
deriving DecidableEq, Repr

/-- The `analyticsData` record assembled by `loadAnalyticsData`.  The two
performance objects are modelled as key → value functions; `scoreDistribution`
is (bucket label, count) in the source's bucket order; `recentTrends` is
(day, rounded average, count) in push order (oldest day first). -/
structure AnalyticsData where
  totalStudents : Nat
  averageScore : Int
  highestScore : Int
  lowestScore : Int
  subjectPerformance : String → Option (ℚ × Nat)
  versionPerformance : String → Option (ℚ × Nat)
  scoreDistribution : List (String × Nat)
  recentTrends : List (Int × Int × Nat)

/-- `Math.max(...scores)` for the nonempty argument list `a :: t` (the only
way the source calls it); the `[]` value is junk. -/
def jsMax : List ℚ → ℚ
  | [] => 0
  | a :: t => t.foldl max a

/-- `Math.min(...scores)` for a nonempty argument list. -/
def jsMin : List ℚ → ℚ
  | [] => 0
  | a :: t => t.foldl min a

/-- The `subjectPerformance` object of `loadAnalyticsData` as a key → value
function: a subject appears iff some result reports it; its entry is
(mean of the reported scores, number of reporting results). -/
def subjectPerformance (results : List ResultRecord) (s : String) : Option (ℚ × Nat) :=
  if (results.filterMap (fun r => r.subject_scores.lookup s)).length = 0 then none
  else some
    ((results.filterMap (fun r => r.subject_scores.lookup s)).sum /
       ((results.filterMap (fun r => r.subject_scores.lookup s)).length : ℚ),
     (results.filterMap (fun r => r.subject_scores.lookup s)).length)

/-- The `versionPerformance` object of `loadAnalyticsData` as a key → value
function: mean percentage and count over the results of that sheet version. -/
def versionPerformance (results : List ResultRecord) (v : String) : Option (ℚ × Nat) :=
  if (results.filter (fun r => r.sheet_version == v)).length = 0 then none
  else some
    (((results.filter (fun r => r.sheet_version == v)).map (fun r => r.percentage)).sum /
       (((results.filter (fun r => r.sheet_version == v)).length : ℚ)),
     (results.filter (fun r => r.sheet_version == v)).length)

/-- The fixed `scoreRanges` buckets of `loadAnalyticsData`, in source order:
label, `min`, `max`; a score lands in a bucket when `min ≤ score ≤ max`. -/
def scoreRanges : List (String × ℚ × ℚ) :=
  [("90-100%", 90, 100), ("80-89%", 80, 89), ("70-79%", 70, 79),
   ("60-69%", 60, 69), ("50-59%", 50, 59), ("0-49%", 0, 49)]

/-- The `scoreDistribution` histogram of `loadAnalyticsData`. -/
def scoreDistribution (scores : List ℚ) : List (String × Nat) :=
  scoreRanges.map (fun b =>
    (b.1, scores.countP (fun score => b.2.1 ≤ score && score ≤ b.2.2)))

/-- One entry of `recentTrends`: the results uploaded on `day`, their count
and `Math.round`ed mean percentage (0 when the day is empty). -/
def trendEntry (results : List ResultRecord) (day : Int) : Int × Int × Nat :=
  (day,
   jsRound
     (if 0 < (results.filter (fun r => r.created_day == day)).length then
        ((results.filter (fun r => r.created_day == day)).map (fun r => r.percentage)).sum /
          (((results.filter (fun r => r.created_day == day)).length : ℚ))
      else 0),
   (results.filter (fun r => r.created_day == day)).length)

/-- The `recentTrends` loop: `i` runs 6, 5, ..., 0 and pushes the entry for
day `today - i`, so the entries are for days `today - 6, ..., today`. -/
def recentTrends (results : List ResultRecord) (today : Int) : List (Int × Int × Nat) :=
  (List.range 7).map (fun j : ℕ => trendEntry results (today - 6 + (j : Int)))

/-- `loadAnalyticsData` (OMRAnalytics component inside AnswerKeyManager.tsx):
the empty-input early return at lines 490-503 yields all-zero scalars and
empty maps AND empty `scoreDistribution`/`recentTrends` arrays; otherwise the
statistics are computed over `scores = results.map(r => r.percentage)`. -/
def loadAnalyticsData (results : List ResultRecord) (today : Int) : AnalyticsData :=
  if results.length = 0 then
    { totalStudents := 0
      averageScore := 0
      highestScore := 0
      lowestScore := 0
      subjectPerformance := fun _ => none
      versionPerformance := fun _ => none
      scoreDistribution := []
      recentTrends := [] }
  else
    { totalStudents := results.length
      averageScore := jsRound ((results.map (fun r => r.percentage)).sum / (results.length : ℚ))
      highestScore := jsRound (jsMax (results.map (fun r => r.percentage)))
      lowestScore := jsRound (jsMin (results.map (fun r => r.percentage)))
      subjectPerformance := subjectPerformance results
      versionPerformance := versionPerformance results
      scoreDistribution := scoreDistribution (results.map (fun r => r.percentage))
      recentTrends := recentTrends results today }

/-- The `result` part of a joined sheet row as consumed by `exportToCSV`
(OMRResults component, fields of the `omr_results` row). -/
structure SheetResult where
  total_score : ℚ
  max_score : ℚ
  percentage : ℚ
  subject_scores : List (String × ℚ)
  correct_answers : ℚ
  incorrect_answers : ℚ
  unanswered : ℚ
  confidence_score : ℚ
deriving DecidableEq, Repr

/-- A row of the results table as displayed/exported by the OMRResults
component; `result` is `none` when no `omr_results` row matches the sheet. -/
structure SheetRow where
  student_name : Option String
  student_id : Option String
  roll_number : Option String
  sheet_version : String
  status : String
  original_filename : String
  created_day : Int
  result : Option SheetResult
deriving DecidableEq, Repr

/-- `value || ''` on an optional string field (`undefined` and `''` both give
`''`). -/
def jsOrEmptyStr : Option String → String
  | none => ""
  | some s => s

/-- `value || ''` on an optional numeric field: `undefined` gives `''` and so
does the number `0` (falsy); other numbers are stringified.  The exact JS
number formatting of nonzero values is abstracted by `toString`. -/
def jsNumCell : Option ℚ → String
  | none => ""
  | some q => if q = 0 then "" else toString q

/-- One data row built by `exportToCSV` (OMRResults component, lines 153-171
of the file), cell by cell in column order. -/
def csvRow (sheet : SheetRow) : List String :=
  [jsOrEmptyStr sheet.student_name,
   jsOrEmptyStr sheet.student_id,
   jsOrEmptyStr sheet.roll_number,
   sheet.sheet_version,
   sheet.status,
   jsNumCell (sheet.result.map (fun r => r.total_score)),
   jsNumCell (sheet.result.map (fun r => r.percentage)),
   jsNumCell (sheet.result.bind (fun r => r.subject_scores.lookup "english")),
   jsNumCell (sheet.result.bind (fun r => r.subject_scores.lookup "math")),
   jsNumCell (sheet.result.bind (fun r => r.subject_scores.lookup "science")),
   jsNumCell (sheet.result.bind (fun r => r.subject_scores.lookup "social")),
   jsNumCell (sheet.result.bind (fun r => r.subject_scores.lookup "hindi")),
   jsNumCell (sheet.result.map (fun r => r.correct_answers)),
   jsNumCell (sheet.result.map (fun r => r.incorrect_answers)),
   jsNumCell (sheet.result.map (fun r => r.unanswered)),
   jsNumCell (sheet.result.map (fun r => r.confidence_score)),
   toString sheet.created_day]

/-! Concrete inputs used by counterexamples and witnesses. -/

/-- A 100-question answer key whose `max_score` (200) differs from its
`total_questions` (100) — the database schema allows this and the spec's data
model explicitly reserves it for weighted scoring. -/
def keyMax200 : AnswerKey :=
  { name := "Weighted"
    version := "A"
    subject_breakdown := []
    answers := List.replicate 100 1
    total_questions := 100
    max_score := 200 }

/-- A detected-answer vector (as the stub generates: 100 entries in
`{0} ∪ [1,4]`) with exactly 50 answers matching `keyMax200`. -/
def detectedHalf : List Int :=
  List.replicate 50 1 ++ List.replicate 50 2

/-- A 2-question answer key whose single subject range `[1, 3]` runs past
`total_questions = 2`; the schema stores the breakdown as unvalidated JSON. -/
def keyRangeBeyond : AnswerKey :=
  { name := "Tiny"
    version := "A"
    subject_breakdown := [("s", ⟨1, 3⟩)]
    answers := [1, 2]
    total_questions := 2
    max_score := 2 }

/-- The overlapping subject breakdown from the spec's `RangeOverlap`
example: `{a: [1,20], b: [15,40]}`. -/
def overlapBreakdown : List (String × SubjectRange) :=
  [("a", ⟨1, 20⟩), ("b", ⟨15, 40⟩)]

/-! Helper lemmas. -/

theorem countP_verdict_partition (vs : List Verdict) :
    vs.countP isCorrect + vs.countP isIncorrect + vs.countP isUnanswered = vs.length := by
  induction vs with
  | nil => rfl
  | cons v t ih =>
    cases v <;> simp [List.countP_cons, isCorrect, isIncorrect, isUnanswered] <;> omega

theorem verdictOf_unanswered_iff (keyAnswers : List Int) (i : Nat) (a : Int) :
    verdictOf keyAnswers i a = .unanswered ↔ a = 0 := by
  unfold verdictOf
  split_ifs <;> simp_all

theorem verdictOf_correct_iff (keyAnswers : List Int) (i : Nat) (a : Int) :
    verdictOf keyAnswers i a = .correct ↔ a ≠ 0 ∧ keyAnswers[i]? = some a := by
  unfold verdictOf
  split_ifs <;> simp_all

theorem verdictOf_incorrect_iff (keyAnswers : List Int) (i : Nat) (a : Int) :
    verdictOf keyAnswers i a = .incorrect ↔ a ≠ 0 ∧ keyAnswers[i]? ≠ some a := by
  unfold verdictOf
  split_ifs <;> simp_all

/-! Claim theorems. -/

/-- C1: for every answer key and detected-answer vector of the matching
length, the scoring loop classifies each question as exactly one of
unanswered (detected value 0), correct (detected value equals the key's
answer at that index), or incorrect (otherwise) — the three characterizations
below are mutually exclusive and exhaustive — and
`correct + incorrect + unanswered = totalQuestions`. -/
theorem c1_scoring_partition (key : AnswerKey) (detected : List Int)
    (hd : (detected.length : Int) = key.total_questions)
    (hk : (key.answers.length : Int) = key.total_questions) :
    (∀ (i : Nat) (a : Int),
      (verdictOf key.answers i a = .unanswered ↔ a = 0) ∧
      (verdictOf key.answers i a = .correct ↔ a ≠ 0 ∧ key.answers[i]? = some a) ∧
      (verdictOf key.answers i a = .incorrect ↔ a ≠ 0 ∧ key.answers[i]? ≠ some a)) ∧
    ((correctCount detected key.answers : Int) + incorrectCount detected key.answers +
        unansweredCount detected key.answers = key.total_questions) := by
  refine ⟨fun i a => ⟨verdictOf_unanswered_iff _ _ _, verdictOf_correct_iff _ _ _,
    verdictOf_incorrect_iff _ _ _⟩, ?_⟩
  have h := countP_verdict_partition (verdicts detected key.answers)
  have hlen : (verdicts detected key.answers).length = detected.length := by
    simp [verdicts]
  unfold correctCount incorrectCount unansweredCount
  omega

/-- Witness for C1 at a concrete 2-question key and sheet. -/
theorem c1_scoring_partition_witness :
    ((([1, 0] : List Int).length : Int) = (keyRangeBeyond.total_questions)) ∧
    ((correctCount [1, 0] keyRangeBeyond.answers : Int) +
        incorrectCount [1, 0] keyRangeBeyond.answers +
        unansweredCount [1, 0] keyRangeBeyond.answers = keyRangeBeyond.total_questions) :=
  ⟨by decide,
   (c1_scoring_partition keyRangeBeyond [1, 0] (by decide) (by decide)).2⟩

theorem floor_intCast_add_half (z : ℤ) : ⌊(z : ℚ) + 1/2⌋ = z := by
  have h0 : ⌊(1/2 : ℚ)⌋ = 0 := by
    rw [Int.floor_eq_zero_iff]
    constructor <;> norm_num
  rw [Int.floor_int_add, h0, add_zero]

/-- `round2` fixes integers. -/
theorem round2_intCast (k : ℤ) : round2 (k : ℚ) = k := by
  unfold round2
  rcases lt_or_le k 0 with hk | hk
  · rw [if_pos (by exact_mod_cast hk)]
    have h : (-(k : ℚ)) * 100 = ((-k * 100 : ℤ) : ℚ) := by push_cast; ring
    rw [h, floor_intCast_add_half]
    push_cast
    field_simp
  · rw [if_neg (not_lt.mpr (by exact_mod_cast hk))]
    have h : (k : ℚ) * 100 = ((k * 100 : ℤ) : ℚ) := by push_cast; ring
    rw [h, floor_intCast_add_half]
    push_cast
    field_simp

set_option maxRecDepth 4000 in
/-- C2 counterexample: on the key `keyMax200` (100 questions, `max_score`
200) and a run with 50 correct answers, the persisted percentage is 50 while
the spec's formula `totalScore / maxScore * 100` gives 25. -/
theorem c2_percentage_divisor_counterexample :
    (simulateResultRow keyMax200 detectedHalf 0 0).percentage = 50 ∧
    specPercentage ((simulateResultRow keyMax200 detectedHalf 0 0).total_score : ℚ)
      ((simulateResultRow keyMax200 detectedHalf 0 0).max_score : ℚ) = 25 ∧
    (50 : ℚ) ≠ 25 := by
  have hc : correctCount detectedHalf (List.replicate 100 1) = 50 := by decide
  have r50 : round2 (50 : ℚ) = 50 := by
    have h := round2_intCast 50
    push_cast at h
    exact h
  have r25 : round2 (25 : ℚ) = 25 := by
    have h := round2_intCast 25
    push_cast at h
    exact h
  refine ⟨?_, ?_, by norm_num⟩
  · norm_num [simulateResultRow, keyMax200, hc, r50]
  · norm_num [simulateResultRow, specPercentage, keyMax200, hc, r25]

/-- C2 amended: the persisted percentage is
`round2(totalScore / totalQuestions * 100)`; it agrees with the spec's
`totalScore / maxScore * 100` exactly when the key has
`maxScore = totalQuestions` (as every key saved by the app does — both are
hard-coded to 100). -/
theorem c2_percentage_amended (key : AnswerKey) (detected : List Int) (r1 r2 : ℚ)
    (h : key.max_score = key.total_questions) :
    (simulateResultRow key detected r1 r2).percentage =
      specPercentage ((simulateResultRow key detected r1 r2).total_score : ℚ)
        ((simulateResultRow key detected r1 r2).max_score : ℚ) := by
  simp [simulateResultRow, specPercentage, h]

/-- Witness for C2 (amended) on a key with `max_score = total_questions`. -/
theorem c2_percentage_amended_witness :
    keyRangeBeyond.max_score = keyRangeBeyond.total_questions ∧
    (simulateResultRow keyRangeBeyond [1, 0] 0 0).percentage =
      specPercentage ((simulateResultRow keyRangeBeyond [1, 0] 0 0).total_score : ℚ)
        ((simulateResultRow keyRangeBeyond [1, 0] 0 0).max_score : ℚ) :=
  ⟨rfl, c2_percentage_amended keyRangeBeyond [1, 0] 0 0 rfl⟩

/-- On an in-bounds index, the subject loop's raw comparison
`detectedAnswers[i] === correctAnswers[i]` agrees with "question i was
classified correct", provided the key's answers are valid options (so the
key answer is nonzero). -/
theorem jsIndex_beq_eq_isCorrect (detected k : List Int) (i : Nat)
    (hi : i < detected.length) (hik : i < k.length)
    (hvalid : ∀ a ∈ k, 1 ≤ a ∧ a ≤ 4) :
    (jsIndex detected (i : Int) == jsIndex k (i : Int)) =
      isCorrect (verdictAt detected k i) := by
  have hd : detected[(i : Nat)]? = some detected[i] := List.getElem?_eq_getElem hi
  have hk2 : k[(i : Nat)]? = some k[i] := List.getElem?_eq_getElem hik
  have hkb : 1 ≤ k[i] := (hvalid _ (List.getElem_mem hik)).1
  have htn : ((i : Int)).toNat = i := Int.toNat_natCast i
  unfold jsIndex verdictAt verdictOf
  rw [if_neg (by omega), if_neg (by omega), htn, hd, hk2]
  by_cases hz : detected[i] = 0
  · have hne : ¬ (detected[i] = k[i]) := by omega
    simp [hz, isCorrect, hne]
    omega
  · by_cases he : k[i] = detected[i]
    · simp [hz, hk2, he, isCorrect]
    · have hne : ¬ (detected[i] = k[i]) := fun h => he h.symm
      simp [hz, hk2, isCorrect, hne, he]

/-- C3 counterexample: on a 2-question key with valid answers and matching
detected length, the subject range `[1, 3]` (stored unvalidated) yields a
recorded subject score of 3, while only 2 questions are classified correct
with 1-based index in `[1, 3]` — the loop's `undefined === undefined`
comparison at index 3 counts as a hit. -/
theorem c3_subject_score_counterexample :
    (∀ a ∈ keyRangeBeyond.answers, 1 ≤ a ∧ a ≤ 4) ∧
    keyRangeBeyond.answers.length = ([1, 2] : List Int).length ∧
    subjectScore [1, 2] keyRangeBeyond.answers ⟨1, 3⟩ ≠
      (List.range ([1, 2] : List Int).length).countP
        (fun j => isCorrect (verdictAt [1, 2] keyRangeBeyond.answers j) &&
          decide ((1 : Int) ≤ (j : Int) + 1) && decide ((j : Int) + 1 ≤ (3 : Int))) := by
  decide

/-- C3 amended: when the subject range additionally lies inside
`[1, totalQuestions]`, the recorded subject score (as written into the
result row) is exactly the number of questions classified correct whose
1-based index lies in the range. -/
theorem c3_subject_score_amended (key : AnswerKey) (detected : List Int) (r : SubjectRange)
    (hlen : key.answers.length = detected.length)
    (hvalid : ∀ a ∈ key.answers, 1 ≤ a ∧ a ≤ 4)
    (hs : 1 ≤ r.start) (ht : r.stop ≤ (detected.length : Int)) :
    (∀ r1 r2 : ℚ, (simulateResultRow key detected r1 r2).subject_scores =
      key.subject_breakdown.map (fun p => (p.1, subjectScore detected key.answers p.2))) ∧
    subjectScore detected key.answers r =
      (List.range detected.length).countP
        (fun j => isCorrect (verdictAt detected key.answers j) &&
          decide (r.start ≤ (j : Int) + 1) && decide ((j : Int) + 1 ≤ r.stop)) := by
  refine ⟨fun r1 r2 => rfl, ?_⟩
  by_cases hst : r.stop < r.start
  · -- empty subject range: the loop body never runs, and no index lies in it
    have hz : (r.stop - 1 + 1 - (r.start - 1)).toNat = 0 := by omega
    have lhs0 : subjectScore detected key.answers r = 0 := by
      unfold subjectScore intRange
      rw [hz]
      rfl
    have rhs0 : (List.range detected.length).countP
        (fun j => isCorrect (verdictAt detected key.answers j) &&
          decide (r.start ≤ (j : Int) + 1) && decide ((j : Int) + 1 ≤ r.stop)) = 0 := by
      apply List.countP_eq_zero.mpr
      intro j _
      simp only [Bool.and_eq_true, decide_eq_true_eq, not_and]
      intro h _
      omega
    rw [lhs0, rhs0]
  · have hs0 : (0 : Int) ≤ r.start - 1 := by omega
    have ha : (((r.start - 1).toNat : ℕ) : Int) = r.start - 1 := Int.toNat_of_nonneg hs0
    have hlen2 : (((r.stop + 1 - r.start).toNat : ℕ) : Int) = r.stop + 1 - r.start :=
      Int.toNat_of_nonneg (by omega)
    set a := (r.start - 1).toNat with hadef
    set len := (r.stop + 1 - r.start).toNat with hlendef
    have hb : a + len ≤ detected.length := by omega
    have step1 : subjectScore detected key.answers r
        = (List.range len).countP
            (fun j : ℕ => jsIndex detected (r.start - 1 + (j : Int)) ==
              jsIndex key.answers (r.start - 1 + (j : Int))) := by
      unfold subjectScore intRange
      have hl : (r.stop - 1 + 1 - (r.start - 1)).toNat = len := by omega
      rw [hl, List.countP_map]
      rfl
    have step2 : ∀ j ∈ List.range len,
        (jsIndex detected (r.start - 1 + (j : Int)) ==
          jsIndex key.answers (r.start - 1 + (j : Int))) =
        isCorrect (verdictAt detected key.answers (a + j)) := by
      intro j hj
      have hj' : j < len := List.mem_range.mp hj
      have hidx : r.start - 1 + (j : Int) = ((a + j : ℕ) : ℤ) := by push_cast; omega
      rw [hidx]
      exact jsIndex_beq_eq_isCorrect detected key.answers (a + j) (by omega) (by omega) hvalid
    have z1 : (List.range a).countP
        (fun j => isCorrect (verdictAt detected key.answers j) &&
          decide (r.start ≤ (j : Int) + 1) && decide ((j : Int) + 1 ≤ r.stop)) = 0 := by
      apply List.countP_eq_zero.mpr
      intro j hj
      have hj' : j < a := List.mem_range.mp hj
      simp only [Bool.and_eq_true, decide_eq_true_eq, not_and]
      intro h
      exfalso
      have hcast : (j : Int) < (a : Int) := by exact_mod_cast hj'
      omega
    have z2 : (List.range (detected.length - (a + len))).countP
        (fun x => isCorrect (verdictAt detected key.answers (a + len + x)) &&
          decide (r.start ≤ ((a + len + x : ℕ) : Int) + 1) &&
          decide (((a + len + x : ℕ) : Int) + 1 ≤ r.stop)) = 0 := by
      apply List.countP_eq_zero.mpr
      intro x _
      simp only [Bool.and_eq_true, decide_eq_true_eq, not_and]
      intro h h2
      exfalso
      have hc : ((a + len + x : ℕ) : Int) = (a : Int) + (len : Int) + (x : Int) := by
        push_cast
        ring
      omega
    have e1 : List.range detected.length =
        List.range (a + len) ++ (List.range (detected.length - (a + len))).map ((a + len) + ·) := by
      rw [← List.range_add]
      congr 1
      omega
    have step3 : (List.range detected.length).countP
        (fun j => isCorrect (verdictAt detected key.answers j) &&
          decide (r.start ≤ (j : Int) + 1) && decide ((j : Int) + 1 ≤ r.stop))
        = (List.range len).countP
            (fun j => isCorrect (verdictAt detected key.answers (a + j))) := by
      rw [e1, List.countP_append, List.range_add, List.countP_append,
        List.countP_map, List.countP_map]
      simp only [Function.comp_def]
      rw [z1, z2, Nat.zero_add, Nat.add_zero]
      apply List.countP_congr
      intro j hj
      have hj' : j < len := List.mem_range.mp hj
      have hc : ((a + j : ℕ) : Int) = (a : Int) + (j : Int) := by push_cast; ring
      have hjc : (j : Int) < (len : Int) := by exact_mod_cast hj'
      simp only [Bool.and_eq_true, decide_eq_true_eq]
      constructor
      · intro h
        exact h.1.1
      · intro h
        exact ⟨⟨h, by omega⟩, by omega⟩
    rw [step1, step3]
    apply List.countP_congr
    intro j hj
    rw [step2 j hj]

/-- Witness for C3 (amended) on a 2-question key with subject range `[1, 2]`. -/
theorem c3_subject_score_amended_witness :
    (keyRangeBeyond.answers.length = ([1, 0] : List Int).length ∧
      (∀ a ∈ keyRangeBeyond.answers, 1 ≤ a ∧ a ≤ 4) ∧
      (1 : Int) ≤ (⟨1, 2⟩ : SubjectRange).start ∧
      (⟨1, 2⟩ : SubjectRange).stop ≤ (([1, 0] : List Int).length : Int)) ∧
    subjectScore [1, 0] keyRangeBeyond.answers ⟨1, 2⟩ =
      (List.range ([1, 0] : List Int).length).countP
        (fun j => isCorrect (verdictAt [1, 0] keyRangeBeyond.answers j) &&
          decide ((⟨1, 2⟩ : SubjectRange).start ≤ (j : Int) + 1) &&
          decide ((j : Int) + 1 ≤ (⟨1, 2⟩ : SubjectRange).stop)) :=
  ⟨⟨by decide, by decide, by decide, by decide⟩,
   (c3_subject_score_amended keyRangeBeyond [1, 0] ⟨1, 2⟩ (by decide) (by decide)
      (by decide) (by decide)).2⟩

set_option maxRecDepth 4000 in
/-- C4: the spec requires create/update to reject a subject breakdown with
overlapping ranges (`RangeOverlap`) or gaps (`RangeGap`), and itself flags
that the current system accepts ranges unchecked.  Indeed `saveAnswerKey`
persists a key whose breakdown is the spec's own `RangeOverlap` example
`{a: [1,20], b: [15,40]}`, reporting no validation error. -/
theorem c4_overlapping_breakdown_accepted :
    breakdownOverlaps overlapBreakdown = true ∧
    saveAnswerKey [] none "Final Exam 2024" "A" (List.replicate 100 1) overlapBreakdown =
      ([⟨"Final Exam 2024", "A", overlapBreakdown, List.replicate 100 1, 100, 100⟩], none) := by
  constructor
  · decide
  · decide

/-- C5: a save whose parsed answers list does not have exactly 100 entries,
or has an entry outside `[1, 4]`, is rejected with a validation toast before
the insert/update runs, so the `answer_keys` store is unchanged. -/
theorem c5_invalid_answers_not_persisted (store : List AnswerKey) (editing : Option Nat)
    (name version : String) (answers : List Int) (breakdown : List (String × SubjectRange))
    (h : answers.length ≠ 100 ∨ ∃ a ∈ answers, a < 1 ∨ 4 < a) :
    (saveAnswerKey store editing name version answers breakdown).1 = store ∧
    (saveAnswerKey store editing name version answers breakdown).2.isSome := by
  unfold saveAnswerKey
  split_ifs with h1 h2 h3
  · exact ⟨rfl, rfl⟩
  · exact ⟨rfl, rfl⟩
  · exact ⟨rfl, rfl⟩
  · exfalso
    rcases h with h | ⟨a, ha, hb⟩
    · exact h2 h
    · apply h3
      rw [List.any_eq_true]
      refine ⟨a, ha, ?_⟩
      simp only [Bool.or_eq_true, decide_eq_true_eq]
      omega

/-- Witness for C5 on a 1-entry answers list. -/
theorem c5_invalid_answers_not_persisted_witness :
    (([5] : List Int).length ≠ 100 ∨ ∃ a ∈ ([5] : List Int), a < 1 ∨ 4 < a) ∧
    ((saveAnswerKey [] none "K" "A" [5] []).1 = [] ∧
      (saveAnswerKey [] none "K" "A" [5] []).2.isSome) :=
  ⟨Or.inl (by decide),
   c5_invalid_answers_not_persisted [] none "K" "A" [5] [] (Or.inl (by decide))⟩

/-- C6 counterexample: on an empty result set, `loadAnalyticsData` takes the
early-return branch and produces an empty `recentTrends` array, not one with
7 zero-count entries. -/
theorem c6_empty_trend_counterexample :
    (loadAnalyticsData [] 0).recentTrends.length ≠ 7 := by
  decide

/-- C6 amended: aggregating no results is not an error and yields zeroed
scalars and empty maps, but the `scoreDistribution` and `recentTrends`
sequences are empty rather than zero-filled. -/
theorem c6_empty_aggregate_amended (today : Int) :
    loadAnalyticsData [] today =
      { totalStudents := 0
        averageScore := 0
        highestScore := 0
        lowestScore := 0
        subjectPerformance := fun _ => none
        versionPerformance := fun _ => none
        scoreDistribution := []
        recentTrends := [] } := rfl

/-- A result whose percentage, 89.5, falls strictly between the `80-89%` and
`90-100%` buckets (such a percentage arises from e.g. 179 of 200 correct). -/
def resultGap : ResultRecord :=
  { percentage := (179 : ℚ) / 2
    subject_scores := []
    sheet_version := "A"
    created_day := 0 }

/-- A result with the integer percentage 80. -/
def resultInt : ResultRecord :=
  { percentage := 80
    subject_scores := []
    sheet_version := "A"
    created_day := 0 }

/-- Splitting off the head of the score list adds, per bucket, the head's
membership indicator. -/
theorem sum_scoreDistribution_cons (s : ℚ) (t : List ℚ) :
    ((scoreDistribution (s :: t)).map (fun q => q.2)).sum =
      ((scoreDistribution t).map (fun q => q.2)).sum +
        scoreRanges.countP (fun b => b.2.1 ≤ s && s ≤ b.2.2) := by
  simp only [scoreDistribution, scoreRanges, List.map_cons, List.map_nil,
    List.countP_cons, List.countP_nil, List.sum_cons, List.sum_nil]
  omega

/-- An integer percentage in `[0, 100]` lies in exactly one of the six fixed
buckets. -/
theorem bucket_count_one (k : ℤ) (h0 : 0 ≤ k) (h100 : k ≤ 100) :
    scoreRanges.countP (fun b => b.2.1 ≤ (k : ℚ) && (k : ℚ) ≤ b.2.2) = 1 := by
  simp only [scoreRanges, List.countP_cons, List.countP_nil, Bool.and_eq_true,
    decide_eq_true_eq]
  have e1 : ((90 : ℚ) ≤ (k : ℚ)) ↔ ((90 : ℤ) ≤ k) := by exact_mod_cast Iff.rfl
  have e2 : ((k : ℚ) ≤ (100 : ℚ)) ↔ (k ≤ (100 : ℤ)) := by exact_mod_cast Iff.rfl
  have e3 : ((80 : ℚ) ≤ (k : ℚ)) ↔ ((80 : ℤ) ≤ k) := by exact_mod_cast Iff.rfl
  have e4 : ((k : ℚ) ≤ (89 : ℚ)) ↔ (k ≤ (89 : ℤ)) := by exact_mod_cast Iff.rfl
  have e5 : ((70 : ℚ) ≤ (k : ℚ)) ↔ ((70 : ℤ) ≤ k) := by exact_mod_cast Iff.rfl
  have e6 : ((k : ℚ) ≤ (79 : ℚ)) ↔ (k ≤ (79 : ℤ)) := by exact_mod_cast Iff.rfl
  have e7 : ((60 : ℚ) ≤ (k : ℚ)) ↔ ((60 : ℤ) ≤ k) := by exact_mod_cast Iff.rfl
  have e8 : ((k : ℚ) ≤ (69 : ℚ)) ↔ (k ≤ (69 : ℤ)) := by exact_mod_cast Iff.rfl
  have e9 : ((50 : ℚ) ≤ (k : ℚ)) ↔ ((50 : ℤ) ≤ k) := by exact_mod_cast Iff.rfl
  have e10 : ((k : ℚ) ≤ (59 : ℚ)) ↔ (k ≤ (59 : ℤ)) := by exact_mod_cast Iff.rfl
  have e11 : ((0 : ℚ) ≤ (k : ℚ)) ↔ ((0 : ℤ) ≤ k) := by exact_mod_cast Iff.rfl
  have e12 : ((k : ℚ) ≤ (49 : ℚ)) ↔ (k ≤ (49 : ℤ)) := by exact_mod_cast Iff.rfl
  simp only [e1, e2, e3, e4, e5, e6, e7, e8, e9, e10, e11, e12]
  split_ifs <;> omega

/-- When every score is an integer in `[0, 100]`, the bucket counts sum to
the number of scores. -/
theorem sum_scoreDistribution_of_int (scores : List ℚ)
    (h : ∀ s ∈ scores, ∃ k : ℤ, s = (k : ℚ) ∧ 0 ≤ k ∧ k ≤ 100) :
    ((scoreDistribution scores).map (fun q => q.2)).sum = scores.length := by
  induction scores with
  | nil => rfl
  | cons s t ih =>
    obtain ⟨k, hk, hk0, hk100⟩ := h s (List.mem_cons_self s t)
    have ihh := ih (fun x hx => h x (List.mem_cons_of_mem _ hx))
    subst hk
    rw [sum_scoreDistribution_cons, ihh, bucket_count_one k hk0 hk100,
      List.length_cons]

/-- C7 counterexample: a single result with percentage 89.5 is counted by no
bucket (each bucket tests `min ≤ score ≤ max` with integer endpoints, so the
open gap `(89, 90)` is missed), and the distribution counts sum to 0 ≠ 1. -/
theorem c7_distribution_gap_counterexample :
    ((loadAnalyticsData [resultGap] 0).scoreDistribution.map (fun p => p.2)).sum ≠
      ([resultGap] : List ResultRecord).length := by
  norm_num [loadAnalyticsData, scoreDistribution, scoreRanges, resultGap,
    List.countP_cons, List.countP_nil]

/-- C7 amended: when every result's percentage is an integer in `[0, 100]`
(as every percentage this app produces is — `totalScore` of 100 questions
over `total_questions = 100`), every percentage falls in exactly one bucket
and the bucket counts sum to the number of results; a fractional percentage
strictly inside one of the gaps `(49,50), (59,60), (69,70), (79,80), (89,90)`
is counted by no bucket. -/
theorem c7_distribution_counts_amended (results : List ResultRecord) (today : Int)
    (h : ∀ r ∈ results, ∃ k : ℤ, r.percentage = (k : ℚ) ∧ 0 ≤ k ∧ k ≤ 100) :
    ((loadAnalyticsData results today).scoreDistribution.map (fun p => p.2)).sum =
      results.length := by
  unfold loadAnalyticsData
  split_ifs with h0
  · simp only [List.map_nil, List.sum_nil]
    omega
  · show ((scoreDistribution (results.map (fun r => r.percentage))).map (fun p => p.2)).sum = _
    rw [sum_scoreDistribution_of_int]
    · exact List.length_map results _
    · intro s hs
      obtain ⟨r, hr, hrs⟩ := List.mem_map.mp hs
      obtain ⟨k, hk, hk0, hk100⟩ := h r hr
      exact ⟨k, hrs ▸ hk, hk0, hk100⟩

/-- Witness for C7 (amended) on a single integer-percentage result. -/
theorem c7_distribution_counts_amended_witness :
    (∀ r ∈ [resultInt], ∃ k : ℤ, r.percentage = (k : ℚ) ∧ 0 ≤ k ∧ k ≤ 100) ∧
    ((loadAnalyticsData [resultInt] 0).scoreDistribution.map (fun p => p.2)).sum =
      ([resultInt] : List ResultRecord).length := by
  have hh : ∀ r ∈ [resultInt], ∃ k : ℤ, r.percentage = (k : ℚ) ∧ 0 ≤ k ∧ k ≤ 100 := by
    intro r hr
    rw [List.mem_singleton] at hr
    subst hr
    exact ⟨80, by norm_num [resultInt], by norm_num, by norm_num⟩
  exact ⟨hh, c7_distribution_counts_amended [resultInt] 0 hh⟩

theorem foldl_max_mem (t : List ℚ) (a : ℚ) : t.foldl max a ∈ a :: t := by
  induction t generalizing a with
  | nil => simp
  | cons b t ih =>
    show t.foldl max (max a b) ∈ a :: b :: t
    have h := ih (max a b)
    rcases List.mem_cons.mp h with h1 | h1
    · rcases max_choice a b with hc | hc
      · rw [h1, hc]
        exact List.mem_cons_self a (b :: t)
      · rw [h1, hc]
        exact List.mem_cons.mpr (Or.inr (List.mem_cons_self b t))
    · exact List.mem_cons.mpr (Or.inr (List.mem_cons.mpr (Or.inr h1)))

theorem le_foldl_max (t : List ℚ) (a : ℚ) : ∀ x ∈ a :: t, x ≤ t.foldl max a := by
  induction t generalizing a with
  | nil =>
    intro x hx
    rw [List.mem_singleton] at hx
    simp [hx]
  | cons b t ih =>
    intro x hx
    show x ≤ t.foldl max (max a b)
    have hstep : max a b ≤ t.foldl max (max a b) :=
      ih (max a b) (max a b) (List.mem_cons_self _ _)
    rcases List.mem_cons.mp hx with h1 | h1
    · rw [h1]
      exact le_trans (le_max_left a b) hstep
    · rcases List.mem_cons.mp h1 with h2 | h2
      · rw [h2]
        exact le_trans (le_max_right a b) hstep
      · exact ih (max a b) x (List.mem_cons_of_mem _ h2)

theorem foldl_min_mem (t : List ℚ) (a : ℚ) : t.foldl min a ∈ a :: t := by
  induction t generalizing a with
  | nil => simp
  | cons b t ih =>
    show t.foldl min (min a b) ∈ a :: b :: t
    have h := ih (min a b)
    rcases List.mem_cons.mp h with h1 | h1
    · rcases min_choice a b with hc | hc
      · rw [h1, hc]
        exact List.mem_cons_self a (b :: t)
      · rw [h1, hc]
        exact List.mem_cons.mpr (Or.inr (List.mem_cons_self b t))
    · exact List.mem_cons.mpr (Or.inr (List.mem_cons.mpr (Or.inr h1)))

theorem foldl_min_le (t : List ℚ) (a : ℚ) : ∀ x ∈ a :: t, t.foldl min a ≤ x := by
  induction t generalizing a with
  | nil =>
    intro x hx
    rw [List.mem_singleton] at hx
    simp [hx]
  | cons b t ih =>
    intro x hx
    show t.foldl min (min a b) ≤ x
    have hstep : t.foldl min (min a b) ≤ min a b :=
      ih (min a b) (min a b) (List.mem_cons_self _ _)
    rcases List.mem_cons.mp hx with h1 | h1
    · rw [h1]
      exact le_trans hstep (min_le_left a b)
    · rcases List.mem_cons.mp h1 with h2 | h2
      · rw [h2]
        exact le_trans hstep (min_le_right a b)
      · exact ih (min a b) x (List.mem_cons_of_mem _ h2)

/-- `Math.max` over a nonempty list is permutation invariant. -/
theorem jsMax_perm {l₁ l₂ : List ℚ} (h : l₁.Perm l₂) (hne : l₁ ≠ []) :
    jsMax l₁ = jsMax l₂ := by
  match l₁, l₂, h, hne with
  | [], _, _, hne => exact absurd rfl hne
  | _ :: _, [], h, _ => exact absurd h.eq_nil (List.cons_ne_nil _ _)
  | a :: t, b :: s, h, _ =>
    show t.foldl max a = s.foldl max b
    apply le_antisymm
    · exact le_foldl_max s b _ (h.mem_iff.mp (foldl_max_mem t a))
    · exact le_foldl_max t a _ (h.mem_iff.mpr (foldl_max_mem s b))

/-- `Math.min` over a nonempty list is permutation invariant. -/
theorem jsMin_perm {l₁ l₂ : List ℚ} (h : l₁.Perm l₂) (hne : l₁ ≠ []) :
    jsMin l₁ = jsMin l₂ := by
  match l₁, l₂, h, hne with
  | [], _, _, hne => exact absurd rfl hne
  | _ :: _, [], h, _ => exact absurd h.eq_nil (List.cons_ne_nil _ _)
  | a :: t, b :: s, h, _ =>
    show t.foldl min a = s.foldl min b
    apply le_antisymm
    · exact foldl_min_le t a _ (h.mem_iff.mpr (foldl_min_mem s b))
    · exact foldl_min_le s b _ (h.mem_iff.mp (foldl_min_mem t a))

theorem subjectPerformance_perm {l₁ l₂ : List ResultRecord} (h : l₁.Perm l₂) :
    subjectPerformance l₁ = subjectPerformance l₂ := by
  funext s
  unfold subjectPerformance
  have hp := h.filterMap (fun r => r.subject_scores.lookup s)
  rw [hp.length_eq, hp.sum_eq]

theorem versionPerformance_perm {l₁ l₂ : List ResultRecord} (h : l₁.Perm l₂) :
    versionPerformance l₁ = versionPerformance l₂ := by
  funext v
  unfold versionPerformance
  have hf := h.filter (fun r => r.sheet_version == v)
  rw [hf.length_eq, (hf.map (fun r => r.percentage)).sum_eq]

theorem trendEntry_perm {l₁ l₂ : List ResultRecord} (h : l₁.Perm l₂) (day : Int) :
    trendEntry l₁ day = trendEntry l₂ day := by
  unfold trendEntry
  have hf := h.filter (fun r => r.created_day == day)
  rw [hf.length_eq, (hf.map (fun r => r.percentage)).sum_eq]

theorem recentTrends_perm {l₁ l₂ : List ResultRecord} (h : l₁.Perm l₂) (today : Int) :
    recentTrends l₁ today = recentTrends l₂ today := by
  unfold recentTrends
  have hfun : (fun j : ℕ => trendEntry l₁ (today - 6 + (j : Int))) =
      (fun j : ℕ => trendEntry l₂ (today - 6 + (j : Int))) :=
    funext (fun j => trendEntry_perm h _)
  rw [hfun]

theorem scoreDistribution_perm {s₁ s₂ : List ℚ} (h : s₁.Perm s₂) :
    scoreDistribution s₁ = scoreDistribution s₂ := by
  unfold scoreDistribution
  congr 1
  funext b
  rw [h.countP_eq]

/-- C8: the cohort statistics computed by `loadAnalyticsData` are invariant
under permutation of the fetched result records, given the same "today"
anchor: every reduction involved (counts, sums, min, max, per-key sums,
bucket counts, per-day sums) is order independent. -/
theorem c8_aggregate_perm_invariant (l₁ l₂ : List ResultRecord) (today : Int)
    (h : l₁.Perm l₂) :
    loadAnalyticsData l₁ today = loadAnalyticsData l₂ today := by
  unfold loadAnalyticsData
  have hlen := h.length_eq
  rw [hlen]
  split_ifs with h0
  · rfl
  · have hm := h.map (fun r => r.percentage)
    have hne : l₁.map (fun r => r.percentage) ≠ [] := by
      intro hx
      apply h0
      rw [← hlen]
      simpa using congrArg List.length hx
    congr 1
    · rw [hm.sum_eq]
    · rw [jsMax_perm hm hne]
    · rw [jsMin_perm hm hne]
    · exact subjectPerformance_perm h
    · exact versionPerformance_perm h
    · exact scoreDistribution_perm hm
    · exact recentTrends_perm h today

/-- Witness for C8 on a two-element swap. -/
theorem c8_aggregate_perm_invariant_witness :
    loadAnalyticsData [resultGap, resultInt] 0 = loadAnalyticsData [resultInt, resultGap] 0 :=
  c8_aggregate_perm_invariant _ _ 0 (List.Perm.swap resultInt resultGap [])

/-- A result row whose numeric fields are all 0 (with `max_score` 100). -/
def zeroResult : SheetResult :=
  { total_score := 0
    max_score := 100
    percentage := 0
    subject_scores := [("english", 0)]
    correct_answers := 0
    incorrect_answers := 0
    unanswered := 0
    confidence_score := 0 }

/-- A completed sheet whose result is `zeroResult`. -/
def zeroSheet : SheetRow :=
  { student_name := none
    student_id := none
    roll_number := none
    sheet_version := "A"
    status := "completed"
    original_filename := "sheet.png"
    created_day := 0
    result := some zeroResult }

/-- C9: in the CSV export, every numeric cell is built with `value || ''`,
so a field equal to 0 exports as the empty string — exactly the output of the
same sheet with no result row at all.  Cell indices: 5 total score, 6
percentage, 7 english subject score, 12 correct, 13 incorrect, 14 unanswered,
15 confidence. -/
theorem c9_zero_exports_as_missing (s : SheetRow) (r : SheetResult)
    (h : s.result = some r) :
    (r.total_score = 0 →
      (csvRow s)[5]? = some "" ∧ (csvRow { s with result := none })[5]? = some "") ∧
    (r.percentage = 0 →
      (csvRow s)[6]? = some "" ∧ (csvRow { s with result := none })[6]? = some "") ∧
    (r.subject_scores.lookup "english" = some 0 →
      (csvRow s)[7]? = some "" ∧ (csvRow { s with result := none })[7]? = some "") ∧
    (r.correct_answers = 0 →
      (csvRow s)[12]? = some "" ∧ (csvRow { s with result := none })[12]? = some "") ∧
    (r.incorrect_answers = 0 →
      (csvRow s)[13]? = some "" ∧ (csvRow { s with result := none })[13]? = some "") ∧
    (r.unanswered = 0 →
      (csvRow s)[14]? = some "" ∧ (csvRow { s with result := none })[14]? = some "") ∧
    (r.confidence_score = 0 →
      (csvRow s)[15]? = some "" ∧ (csvRow { s with result := none })[15]? = some "") := by
  refine ⟨fun hz => ⟨?_, rfl⟩, fun hz => ⟨?_, rfl⟩, fun hz => ⟨?_, rfl⟩,
    fun hz => ⟨?_, rfl⟩, fun hz => ⟨?_, rfl⟩, fun hz => ⟨?_, rfl⟩, fun hz => ⟨?_, rfl⟩⟩
  · show some (jsNumCell (s.result.map (fun r => r.total_score))) = some ""
    rw [h]
    simp [jsNumCell, hz]
  · show some (jsNumCell (s.result.map (fun r => r.percentage))) = some ""
    rw [h]
    simp [jsNumCell, hz]
  · show some (jsNumCell (s.result.bind (fun r => r.subject_scores.lookup "english")))
      = some ""
    rw [h]
    simp [jsNumCell, hz]
  · show some (jsNumCell (s.result.map (fun r => r.correct_answers))) = some ""
    rw [h]
    simp [jsNumCell, hz]
  · show some (jsNumCell (s.result.map (fun r => r.incorrect_answers))) = some ""
    rw [h]
    simp [jsNumCell, hz]
  · show some (jsNumCell (s.result.map (fun r => r.unanswered))) = some ""
    rw [h]
    simp [jsNumCell, hz]
  · show some (jsNumCell (s.result.map (fun r => r.confidence_score))) = some ""
    rw [h]
    simp [jsNumCell, hz]

/-- Witness for C9 on a concrete zero-score sheet. -/
theorem c9_zero_exports_as_missing_witness :
    zeroSheet.result = some zeroResult ∧ zeroResult.total_score = 0 ∧
    ((csvRow zeroSheet)[5]? = some "" ∧
      (csvRow { zeroSheet with result := none })[5]? = some "") :=
  ⟨rfl, rfl, (c9_zero_exports_as_missing zeroSheet zeroResult rfl).1 rfl⟩

/-- C10: every inserted result row has `confidence_score = random * 20 + 80`
in `[80, 100)` and `processing_time = floor(random * 5000) + 1000` in
`[1000, 6000)`, and both values are functions of the random draws alone —
unchanged under any other answer key and detected-answer vector. -/
theorem c10_confidence_time_ranges (key key2 : AnswerKey) (d d2 : List Int) (r1 r2 : ℚ)
    (h1 : 0 ≤ r1) (h2 : r1 < 1) (h3 : 0 ≤ r2) (h4 : r2 < 1) :
    (80 ≤ (simulateResultRow key d r1 r2).confidence_score ∧
      (simulateResultRow key d r1 r2).confidence_score < 100) ∧
    (1000 ≤ (simulateResultRow key d r1 r2).processing_time ∧
      (simulateResultRow key d r1 r2).processing_time < 6000) ∧
    (simulateResultRow key d r1 r2).confidence_score =
      (simulateResultRow key2 d2 r1 r2).confidence_score ∧
    (simulateResultRow key d r1 r2).processing_time =
      (simulateResultRow key2 d2 r1 r2).processing_time := by
  refine ⟨⟨?_, ?_⟩, ⟨?_, ?_⟩, rfl, rfl⟩
  · show (80 : ℚ) ≤ r1 * 20 + 80
    nlinarith
  · show r1 * 20 + 80 < 100
    nlinarith
  · show (1000 : ℤ) ≤ ⌊r2 * 5000⌋ + 1000
    have hf : (0 : ℤ) ≤ ⌊r2 * 5000⌋ := Int.floor_nonneg.mpr (by nlinarith)
    omega
  · show ⌊r2 * 5000⌋ + 1000 < 6000
    have hf : ⌊r2 * 5000⌋ < 5000 := Int.floor_lt.mpr (by push_cast; nlinarith)
    omega

/-- Witness for C10 at the random draws `r1 = r2 = 0`. -/
theorem c10_confidence_time_ranges_witness :
    ((0 : ℚ) ≤ 0 ∧ (0 : ℚ) < 1) ∧
    ((80 ≤ (simulateResultRow keyMax200 [1, 0] 0 0).confidence_score ∧
      (simulateResultRow keyMax200 [1, 0] 0 0).confidence_score < 100) ∧
    (1000 ≤ (simulateResultRow keyMax200 [1, 0] 0 0).processing_time ∧
      (simulateResultRow keyMax200 [1, 0] 0 0).processing_time < 6000) ∧
    (simulateResultRow keyMax200 [1, 0] 0 0).confidence_score =
      (simulateResultRow keyRangeBeyond [] 0 0).confidence_score ∧
    (simulateResultRow keyMax200 [1, 0] 0 0).processing_time =
      (simulateResultRow keyRangeBeyond [] 0 0).processing_time) :=
  ⟨⟨le_refl 0, zero_lt_one⟩,
   c10_confidence_time_ranges keyMax200 keyRangeBeyond [1, 0] [] 0 0
     (le_refl 0) zero_lt_one (le_refl 0) zero_lt_one⟩

end OMR
